import Mathlib

/-
Verification of the pointer-gesture recognizers of package gesture
(src/gesture/gesture.go): the Click, Drag and Scroll recognizers.

Embedding conventions:
  * float32 values are embedded as exact rationals (ℚ);
  * time.Duration and time.Time values are integers (nanoseconds);
  * uint8 enumerations that the source compares against open ranges
    (Axis, ClickKind) are embedded as ℕ with named constants;
  * a Go panic is embedded as Option.none;
  * each recognizer Update loop is one step function per incoming event,
    folded over the frame events in arrival order.
-/

/- The Batteries rational arithmetic is compiled but hidden from unfolding;
restoring default reducibility lets concrete states be evaluated by decide. -/
set_option allowUnsafeReducibility true
attribute [local semireducible] Rat.add Rat.mul Rat.sub Rat.div Rat.inv Rat.neg

namespace Gio

/-- Pointer identifiers (pointer.ID in the source). -/
abbrev PointerID := Nat

/-- A two dimensional point with exact coordinates, embedding f32.Point. -/
structure Point where
  x : ℚ
  y : ℚ
deriving DecidableEq

/-- Integer points, embedding image.Point. -/
structure IntPoint where
  x : ℤ
  y : ℤ
deriving DecidableEq

/-- The pointer event sources of io/pointer. -/
inductive Source
  | Mouse
  | Touch
  | Pen
deriving DecidableEq

/-- The pointer event kinds of io/pointer. -/
inductive Kind
  | Press
  | Release
  | Cancel
  | Enter
  | Leave
  | Move
  | Drag
  | Scroll
deriving DecidableEq

/-- Dispatch priorities of io/pointer, ordered Shared < Foremost < Grabbed. -/
inductive Priority
  | Shared
  | Foremost
  | Grabbed
deriving DecidableEq

/-- The numeric value of a priority, used for the order comparisons of the
source. -/
def Priority.toNat : Priority → Nat
  | .Shared => 0
  | .Foremost => 1
  | .Grabbed => 2

/-- The primary mouse button bit of the pointer.Buttons bitset. -/
def ButtonPrimary : Nat := 1

/-- Embedding of io/pointer.Event restricted to the fields the gesture
package reads. -/
structure Event where
  kind : Kind
  source : Source
  pointerID : PointerID
  buttons : Nat
  priority : Priority
  time : ℤ
  position : Point
  scroll : Point
  modifiers : Nat
deriving DecidableEq

/-- Go conversion int(f) of a float: truncation toward zero. -/
def truncQ (q : ℚ) : ℤ := q.num.tdiv (q.den : ℤ)

/-- Go math.Round: rounding half away from zero. -/
def roundQ (q : ℚ) : ℤ :=
  if q < 0 then -(truncQ (-q + 1/2)) else truncQ (q + 1/2)

/-- f32.Point.Round, producing an image.Point. -/
def Point.round (p : Point) : IntPoint := ⟨roundQ p.x, roundQ p.y⟩

/-- Axis is a uint8 in the source; embedded as ℕ with named constants. -/
abbrev Axis := Nat

def Horizontal : Axis := 0
def Vertical : Axis := 1
def Both : Axis := 2

/-- ClickKind is a uint8 in the source; embedded as ℕ with named constants. -/
abbrev ClickKind := Nat

def KindPress : ClickKind := 0
def KindClick : ClickKind := 1
def KindCancel : ClickKind := 2

/-- Modelled from the spec: unit.Metric is not under src/. Per the spec,
slop constants expressed in device independent units are converted to an
integer number of device pixels via a caller supplied pixels-per-unit
metric at the time of comparison. -/
structure Metric where
  pxPerDp : ℚ
deriving DecidableEq

/-- unit.Metric.Dp: device independent units to integer device pixels. -/
def Metric.dp (c : Metric) (v : ℚ) : ℤ := roundQ (c.pxPerDp * v)

/-- The touch slop constant: unit.Dp(3). -/
def touchSlop : ℚ := 3

/-- The double click window: 200ms, in nanoseconds. -/
def doubleClickDuration : ℤ := 200000000

/-- The state of the Click recognizer. -/
structure Click where
  clickedAt : ℤ
  clicks : ℤ
  pressed : Bool
  hovered : Bool
  entered : Bool
  pid : PointerID
deriving DecidableEq

/-- The ClickEvent output type of the Click recognizer. -/
structure ClickEvent where
  kind : ClickKind
  position : IntPoint
  source : Source
  modifiers : Nat
  numClicks : ℤ
deriving DecidableEq

/-- The Go composite literal ClickEvent{Kind: KindCancel}: every other field
keeps its zero value. -/
def cancelClickEvent : ClickEvent :=
  { kind := KindCancel, position := ⟨0, 0⟩, source := Source.Mouse,
    modifiers := 0, numClicks := 0 }

/-- One iteration of the event loop of Click.Update: the new state and the
ClickEvents appended by this event. -/
def Click.step (c : Click) (e : Event) : Click × List ClickEvent :=
  match e.kind with
  | Kind.Release =>
      if c.pressed = false ∨ c.pid ≠ e.pointerID then (c, [])
      else
        let c1 : Click := { c with pressed := false }
        if c.entered = false ∨ c.hovered = true then
          (c1, [{ kind := KindClick, position := e.position.round,
                  source := e.source, modifiers := e.modifiers,
                  numClicks := c.clicks }])
        else
          (c1, [cancelClickEvent])
  | Kind.Cancel =>
      ({ c with pressed := false, hovered := false, entered := false },
       if c.pressed then [cancelClickEvent] else [])
  | Kind.Press =>
      if c.pressed then (c, [])
      else if e.source = Source.Mouse ∧ e.buttons ≠ ButtonPrimary then (c, [])
      else
        let c1 : Click := if c.hovered = false then { c with pid := e.pointerID } else c
        if c1.pid ≠ e.pointerID then (c1, [])
        else
          let clicks : ℤ :=
            if e.time - c1.clickedAt < doubleClickDuration then c1.clicks + 1 else 1
          ({ c1 with pressed := true, clicks := clicks, clickedAt := e.time },
           [{ kind := KindPress, position := e.position.round,
              source := e.source, modifiers := e.modifiers, numClicks := clicks }])
  | Kind.Leave =>
      let c1 : Click := if c.pressed = false then { c with pid := e.pointerID } else c
      if c1.pid = e.pointerID then ({ c1 with hovered := false }, []) else (c1, [])
  | Kind.Enter =>
      let c1 : Click := if c.pressed = false then { c with pid := e.pointerID } else c
      if c1.pid = e.pointerID then ({ c1 with hovered := true, entered := true }, [])
      else (c1, [])
  | _ => (c, [])

/-- Click.Update: fold the step over the frame events, concatenating the
emitted ClickEvents in arrival order. -/
def Click.update (c : Click) (evts : List Event) : Click × List ClickEvent :=
  evts.foldl (fun acc e =>
    let r := Click.step acc.1 e
    (r.1, acc.2 ++ r.2)) (c, [])

/-- The state of the Drag recognizer. -/
structure Drag where
  dragging : Bool
  pressed : Bool
  pid : PointerID
  start : Point
  grab : Bool
deriving DecidableEq

/-- The axis pinning of Drag.Update: with Horizontal the Y coordinate is
pinned to the start position, with Vertical the X coordinate; otherwise the
position is kept. -/
def Drag.pin (axis : Axis) (start : Point) (p : Point) : Point :=
  if axis = Horizontal then { p with y := start.y }
  else if axis = Vertical then { p with x := start.x }
  else p

/-- The squared euclidean displacement of a (pinned) position from the start
position, as computed by the Drag branch of Drag.Update. -/
def Drag.sqDisp (start p : Point) : ℚ :=
  (p.x - start.x) * (p.x - start.x) + (p.y - start.y) * (p.y - start.y)

/-- One iteration of the event loop of Drag.Update: the new state and the
events forwarded by this iteration (empty on the continue paths of the
source). -/
def Drag.step (cfg : Metric) (axis : Axis) (d : Drag) (e : Event) :
    Drag × List Event :=
  match e.kind with
  | Kind.Press =>
      if ¬(e.buttons = ButtonPrimary ∨ e.source = Source.Touch) then (d, [])
      else
        let d1 : Drag := { d with pressed := true }
        if d1.dragging then (d1, [])
        else ({ d1 with dragging := true, pid := e.pointerID, start := e.position }, [e])
  | Kind.Drag =>
      if d.dragging = false ∨ e.pointerID ≠ d.pid then (d, [])
      else
        let e1 : Event := { e with position := Drag.pin axis d.start e.position }
        if e1.priority.toNat < Priority.Grabbed.toNat then
          let slop := cfg.dp touchSlop
          if Drag.sqDisp d.start e1.position > ((slop * slop : ℤ) : ℚ) then
            ({ d with grab := true }, [e1])
          else (d, [e1])
        else (d, [e1])
  | Kind.Release | Kind.Cancel =>
      let d1 : Drag := { d with pressed := false }
      if d1.dragging = false ∨ e.pointerID ≠ d1.pid then (d1, [])
      else ({ d1 with dragging := false, grab := false }, [e])
  | _ => (d, [e])

/-- Drag.Update: fold the step over the frame events, concatenating the
forwarded events in arrival order. -/
def Drag.update (cfg : Metric) (d : Drag) (evts : List Event) (axis : Axis) :
    Drag × List Event :=
  evts.foldl (fun acc e =>
    let r := Drag.step cfg axis acc.1 e
    (r.1, acc.2 ++ r.2)) (d, [])

/-- Modelled from the spec: the velocity estimator fling.Extrapolation of
package internal/fling is not under src/. It keeps a bounded buffer of
(time, position) samples, oldest dropped beyond capacity; Estimate fits a
least squares line through the retained samples for the velocity and reports
the net signed displacement between the earliest and the latest retained
sample; zero samples give a zero estimate, one sample a zero velocity, and
duplicate timestamps contribute nothing to the slope. -/
structure Extrapolation where
  samples : List (ℤ × ℚ)
deriving DecidableEq

def Extrapolation.empty : Extrapolation := ⟨[]⟩

/-- The sample buffer capacity; the spec fixes no concrete bound. -/
def sampleCap : Nat := 20

/-- Record one (time, position) sample, dropping the oldest beyond the
capacity. -/
def Extrapolation.sample (es : Extrapolation) (t : ℤ) (v : ℚ) : Extrapolation :=
  let l := es.samples ++ [(t, v)]
  ⟨l.drop (l.length - sampleCap)⟩

/-- The velocity and net distance produced by Extrapolation.Estimate. -/
structure Estimate where
  velocity : ℚ
  distance : ℚ
deriving DecidableEq

/-- Least squares fit over the retained samples; distance is the net signed
displacement between the earliest and latest retained sample. -/
def Extrapolation.estimate (es : Extrapolation) : Estimate :=
  match es.samples with
  | [] => ⟨0, 0⟩
  | p :: ps =>
      let l := p :: ps
      let n : ℚ := (l.length : ℚ)
      let mT : ℚ := (l.foldl (fun a q => a + (q.1 : ℚ)) 0) / n
      let mX : ℚ := (l.foldl (fun a q => a + q.2) 0) / n
      let den : ℚ := l.foldl (fun a q => a + ((q.1 : ℚ) - mT) * ((q.1 : ℚ) - mT)) 0
      let num : ℚ := l.foldl (fun a q => a + ((q.1 : ℚ) - mT) * (q.2 - mX)) 0
      ⟨if den = 0 then 0 else num / den, (ps.getLastD p).2 - p.2⟩

/-- Modelled from the spec: the fling animator fling.Animation of package
internal/fling is not under src/. Start seeds a decay model anchored at the
given time, Active reports liveness, and Tick returns the integer delta
accumulated since the previous tick, settling once the decay is exhausted.
The spec leaves the decay internals (friction constant, curve) open and no
claim consumes them, so the model contributes no net motion and settles on
the first tick strictly after its anchor. -/
structure Animation where
  active : Bool
  startTime : ℤ
  velocity : ℚ
deriving DecidableEq

/-- The zero value fling.Animation{}: inactive. -/
def Animation.stopped : Animation := ⟨false, 0, 0⟩

/-- Animation.Start: seed the decay model at time t with the given velocity. -/
def Animation.start (_cfg : Metric) (t : ℤ) (v : ℚ) : Animation := ⟨true, t, v⟩

/-- Animation.Active. -/
def Animation.isActive (a : Animation) : Bool := a.active

/-- Animation.Tick: the integer delta for this frame and the advanced state. -/
def Animation.tick (a : Animation) (t : ℤ) : Animation × ℤ :=
  if a.active = true ∧ a.startTime < t then (⟨false, a.startTime, a.velocity⟩, 0)
  else (a, 0)

/-- The state of the Scroll recognizer. -/
structure Scroll where
  dragging : Bool
  axis : Axis
  estimator : Extrapolation
  flinger : Animation
  pid : PointerID
  grab : Bool
  last : ℤ
  scroll : ℚ
deriving DecidableEq

/-- Scroll.val: the scalar projection of a position for the configured axis. -/
def Scroll.val (s : Scroll) (p : Point) : ℚ :=
  if s.axis = Horizontal then p.x else p.y

/-- The wheel delta selected by the axis switch of the Scroll branch of
Scroll.Update (the Both case of the switch adds nothing). -/
def axisScroll (axis : Axis) (v : Point) : ℚ :=
  if axis = Horizontal then v.x else if axis = Vertical then v.y else 0

/-- One iteration of the event loop of Scroll.Update: the new state and the
contribution of this event to the returned total. The android flag selects
the runtime.GOOS branch of the Press case; t is the update time used to
start a fling. -/
def Scroll.step (cfg : Metric) (android : Bool) (t : ℤ) (s : Scroll) (e : Event) :
    Scroll × ℤ :=
  match e.kind with
  | Kind.Press =>
      if s.dragging then (s, 0)
      else if e.source ≠ Source.Touch ∧ android = false then (s, 0)
      else
        let v := s.val e.position
        ({ s with flinger := Animation.stopped,
                  estimator := Extrapolation.empty.sample e.time v,
                  last := roundQ v,
                  dragging := true,
                  pid := e.pointerID }, 0)
  | Kind.Release =>
      if s.pid ≠ e.pointerID then (s, 0)
      else
        let est := s.estimator.estimate
        let slop : ℚ := ((cfg.dp touchSlop : ℤ) : ℚ)
        let fl := if est.distance < -slop ∨ slop < est.distance
                  then Animation.start cfg t est.velocity else s.flinger
        ({ s with flinger := fl, dragging := false, grab := false }, 0)
  | Kind.Cancel =>
      ({ s with dragging := false, grab := false }, 0)
  | Kind.Scroll =>
      let sc := s.scroll + axisScroll s.axis e.scroll
      let iscroll := truncQ sc
      ({ s with scroll := sc - (iscroll : ℚ) }, iscroll)
  | Kind.Drag =>
      if s.dragging = false ∨ s.pid ≠ e.pointerID then (s, 0)
      else
        let v0 := s.val e.position
        let s1 : Scroll := { s with estimator := s.estimator.sample e.time v0 }
        let v := roundQ v0
        let dist := s1.last - v
        if e.priority.toNat < Priority.Grabbed.toNat then
          let slop := cfg.dp touchSlop
          if dist ≥ slop ∨ -slop ≥ dist then ({ s1 with grab := true }, 0)
          else (s1, 0)
        else
          ({ s1 with last := v }, dist)
  | _ => (s, 0)

/-- Scroll.Update: the axis change reset, then the fold of the step over the
frame events, then the fling tick. -/
def Scroll.update (cfg : Metric) (android : Bool) (s : Scroll)
    (evts : List Event) (t : ℤ) (axis : Axis) : Scroll × ℤ :=
  if s.axis ≠ axis then ({ s with axis := axis }, 0)
  else
    let r := evts.foldl (fun acc e =>
      let st := Scroll.step cfg android t acc.1 e
      (st.1, acc.2 + st.2)) (s, 0)
    let tk := r.1.flinger.tick t
    ({ r.1 with flinger := tk.1 }, r.2 + tk.2)

/-- Axis.String: the names of Horizontal and Vertical; none embeds the panic
of the default branch. -/
def Axis.string (a : Axis) : Option String :=
  if a = Horizontal then some ("Horizontal")
  else if a = Vertical then some ("Vertical")
  else none

/-- ClickKind.String: the names of the three click kinds; none embeds the
panic of the default branch. -/
def ClickKind.string (k : ClickKind) : Option String :=
  if k = KindPress then some ("TypePress")
  else if k = KindClick then some ("TypeClick")
  else if k = KindCancel then some ("TypeCancel")
  else none

/-- A baseline pointer event for the concrete scenarios. -/
def ev0 : Event :=
  { kind := Kind.Press, source := Source.Touch, pointerID := 1, buttons := 0,
    priority := Priority.Shared, time := 0, position := ⟨0, 0⟩,
    scroll := ⟨0, 0⟩, modifiers := 0 }

/-- The zero valued Click state, as Go initializes it. -/
def click0 : Click := ⟨0, 0, false, false, false, 0⟩

/-- The zero valued Drag state. -/
def drag0 : Drag := ⟨false, false, 0, ⟨0, 0⟩, false⟩

/-- The zero valued Scroll state. -/
def scroll0 : Scroll :=
  ⟨false, Horizontal, Extrapolation.empty, Animation.stopped, 0, false, 0, 0⟩

/-- A metric of one pixel per dp, so the converted slop is 3 pixels. -/
def cfg1 : Metric := ⟨1⟩

def c1e : Event := { ev0 with time := 100, pointerID := 3 }

def c2c : Click := { click0 with pressed := true, clicks := 2, pid := 7 }

def c2e : Event :=
  { ev0 with kind := Kind.Release, pointerID := 7, position := ⟨5, 6⟩ }

def c3s : Scroll := { scroll0 with dragging := true, pid := 1, last := 5 }

def c3xs : Scroll := { scroll0 with dragging := true, pid := 1, last := 3 }

def c3e : Event := { ev0 with kind := Kind.Drag, pointerID := 1 }

def c4d : Drag := { drag0 with dragging := true, pressed := true, pid := 1 }

def c4e : Event :=
  { ev0 with kind := Kind.Drag, pointerID := 1, position := ⟨1, 1⟩ }

def c4r : Event := { ev0 with kind := Kind.Release, pointerID := 1 }

def c4g : Drag :=
  { drag0 with dragging := true, pressed := true, pid := 1, grab := true }

def c4b : Event :=
  { ev0 with kind := Kind.Drag, pointerID := 1, position := ⟨10, 0⟩ }

def c5d : Drag :=
  { drag0 with dragging := true, pressed := true, pid := 1, start := ⟨10, 10⟩ }

def c5e : Event :=
  { ev0 with kind := Kind.Drag, pointerID := 1, position := ⟨57, -3⟩ }

def c6e : Event := { ev0 with kind := Kind.Scroll, scroll := ⟨3/10, 0⟩ }

def c6s1 : Scroll := (Scroll.step cfg1 false 0 scroll0 c6e).1

def c6s2 : Scroll := (Scroll.step cfg1 false 0 c6s1 c6e).1

def c6s3 : Scroll := (Scroll.step cfg1 false 0 c6s2 c6e).1

def c6s4 : Scroll := (Scroll.step cfg1 false 0 c6s3 c6e).1

def c7c : Click :=
  { click0 with pressed := true, hovered := true, entered := true, pid := 2 }

def c7s : Scroll := { scroll0 with dragging := true, grab := true, pid := 2 }

def c7e : Event := { ev0 with kind := Kind.Cancel, pointerID := 9 }

def c8c : Click := { click0 with pressed := true, pid := 1 }

def c8d : Drag := { drag0 with dragging := true, pressed := true, pid := 1 }

def c8s : Scroll := { scroll0 with dragging := true, pid := 1 }

def c8re : Event := { ev0 with kind := Kind.Release, pointerID := 2 }

def c8w : Event :=
  { ev0 with kind := Kind.Scroll, pointerID := 2, scroll := ⟨1, 0⟩ }

def c10s : Scroll :=
  { scroll0 with pid := 4, estimator := ⟨[(0, 0), (1000000, 100)]⟩ }

def c10e : Event := { ev0 with kind := Kind.Release, pointerID := 4 }

def c10p : Event := { ev0 with kind := Kind.Press, pointerID := 4, time := 5 }

/-- C1: an accepted Press (not already pressed, mouse button gate passed,
pointer id owned or adopted) increments the consecutive click count by one
when it arrives strictly within 200ms of the previously recorded Press
timestamp and resets it to one otherwise; the press timestamp is recorded at
the Press, the emitted KindPress ClickEvent carries the updated count, and a
Release never changes the recorded press timestamp. -/
theorem C1_press_click_count (c : Click) (e : Event)
    (hk : e.kind = Kind.Press) (hp : c.pressed = false)
    (hgate : ¬(e.source = Source.Mouse ∧ e.buttons ≠ ButtonPrimary))
    (hown : c.hovered = false ∨ c.pid = e.pointerID) :
    ((Click.step c e).1.clicks =
       (if e.time - c.clickedAt < doubleClickDuration then c.clicks + 1 else 1) ∧
     (Click.step c e).1.clickedAt = e.time ∧
     (Click.step c e).1.pressed = true ∧
     (Click.step c e).2 =
       [{ kind := KindPress, position := e.position.round, source := e.source,
          modifiers := e.modifiers,
          numClicks := (Click.step c e).1.clicks }]) ∧
    (∀ (c2 : Click) (e2 : Event), e2.kind = Kind.Release →
       (Click.step c2 e2).1.clickedAt = c2.clickedAt) := by
  constructor
  · obtain ⟨k, src, pidE, btns, prio, tm, pos, scr, mods⟩ := e
    replace hk : k = Kind.Press := hk
    subst hk
    simp only [Click.step]
    rw [if_neg (by simp [hp]), if_neg hgate]
    rcases hown with hh | hh <;> by_cases hv : c.hovered = false <;>
      simp_all
  · intro c2 e2 hk2
    obtain ⟨k2, src2, pid2, btns2, prio2, tm2, pos2, scr2, mods2⟩ := e2
    replace hk2 : k2 = Kind.Release := hk2
    subst hk2
    simp only [Click.step]
    split
    · rfl
    · split <;> rfl

theorem C1_press_click_count_witness :
    c1e.kind = Kind.Press ∧ click0.pressed = false ∧
    (Click.step click0 c1e).1.clicks = 1 := by
  refine ⟨rfl, rfl, ?_⟩
  have h := C1_press_click_count click0 c1e rfl rfl (by decide) (Or.inl rfl)
  rw [h.1.1]
  decide

/-- C2: a Release while pressed with the owned pointer id clears pressed and
emits exactly one event, a KindClick ClickEvent carrying the current click
count when the pointer is still hovered or no Enter was ever tracked, and a
KindCancel ClickEvent otherwise; a Release while not pressed or with a
mismatched pointer id changes nothing and emits nothing. -/
theorem C2_release_click_or_cancel (c : Click) (e : Event)
    (hk : e.kind = Kind.Release) :
    (c.pressed = true → c.pid = e.pointerID →
       (Click.step c e).1 = { c with pressed := false } ∧
       (Click.step c e).2 =
         [if c.entered = false ∨ c.hovered = true then
            { kind := KindClick, position := e.position.round, source := e.source,
              modifiers := e.modifiers, numClicks := c.clicks }
          else cancelClickEvent]) ∧
    ((c.pressed = false ∨ c.pid ≠ e.pointerID) → Click.step c e = (c, [])) := by
  obtain ⟨k, src, pidE, btns, prio, tm, pos, scr, mods⟩ := e
  replace hk : k = Kind.Release := hk
  subst hk
  constructor
  · intro hp hpid
    simp only [Click.step]
    rw [if_neg (by simp [hp, hpid])]
    constructor
    · split <;> rfl
    · split <;> rfl
  · intro hng
    simp only [Click.step]
    rw [if_pos (by simpa using hng)]

theorem C2_release_click_or_cancel_witness :
    c2c.pressed = true ∧ c2c.pid = c2e.pointerID ∧
    (Click.step c2c c2e).2 =
      [{ kind := KindClick, position := ⟨5, 6⟩, source := Source.Touch,
         modifiers := 0, numClicks := 2 }] := by
  refine ⟨rfl, rfl, ?_⟩
  have h := (C2_release_click_or_cancel c2c c2e rfl).1 rfl rfl
  rw [h.2]
  decide

/-- C3 counterexample: on a Drag event whose integer delta from the last
recorded position has magnitude exactly equal to the converted slop
threshold, the Scroll recognizer does set the grab request, so grab is not
set exactly when the magnitude strictly exceeds the threshold. -/
theorem C3_scroll_grab_counterexample :
    c3xs.grab = false ∧
    c3xs.last - roundQ (c3xs.val c3e.position) = cfg1.dp touchSlop ∧
    ¬(c3xs.last - roundQ (c3xs.val c3e.position) > cfg1.dp touchSlop ∨
      -(cfg1.dp touchSlop) > c3xs.last - roundQ (c3xs.val c3e.position)) ∧
    (Scroll.step cfg1 false 0 c3xs c3e).1.grab = true := by
  refine ⟨rfl, by decide, by decide, by decide⟩

/-- C3 (amended): for a Drag event from the owned pointer while dragging, a
priority below Grabbed contributes nothing to the total and does not advance
the last recorded position, and sets the grab request exactly when the
magnitude of the integer delta since the last recorded position equals or
exceeds the converted slop threshold; only a Grabbed priority event
contributes its delta (last minus current projected position) to the total
and advances the last recorded position. -/
theorem C3_scroll_drag_grab (cfg : Metric) (android : Bool) (t : ℤ)
    (s : Scroll) (e : Event)
    (hk : e.kind = Kind.Drag) (hd : s.dragging = true)
    (hpid : s.pid = e.pointerID) :
    (e.priority.toNat < Priority.Grabbed.toNat →
       (Scroll.step cfg android t s e).2 = 0 ∧
       (Scroll.step cfg android t s e).1.last = s.last ∧
       ((Scroll.step cfg android t s e).1.grab = true ↔
          (s.grab = true ∨
           s.last - roundQ (s.val e.position) ≥ cfg.dp touchSlop ∨
           -(cfg.dp touchSlop) ≥ s.last - roundQ (s.val e.position)))) ∧
    (Priority.Grabbed.toNat ≤ e.priority.toNat →
       (Scroll.step cfg android t s e).2 = s.last - roundQ (s.val e.position) ∧
       (Scroll.step cfg android t s e).1.last = roundQ (s.val e.position) ∧
       (Scroll.step cfg android t s e).1.grab = s.grab) := by
  obtain ⟨k, src, pidE, btns, prio, tm, pos, scr, mods⟩ := e
  replace hk : k = Kind.Drag := hk
  subst hk
  replace hpid : s.pid = pidE := hpid
  simp only [Scroll.step]
  rw [if_neg (by simp [hd, hpid])]
  constructor
  · intro hprio
    rw [if_pos hprio]
    refine ⟨?_, ?_, ?_⟩
    · split <;> rfl
    · split <;> rfl
    · split
      next hcond => exact iff_of_true rfl (Or.inr hcond)
      next hcond =>
        refine ⟨fun h => Or.inl h, fun h => ?_⟩
        rcases h with h | h
        · exact h
        · exact absurd h hcond
  · intro hprio
    rw [if_neg (by omega)]
    exact ⟨rfl, rfl, rfl⟩

theorem C3_scroll_drag_grab_witness :
    c3s.dragging = true ∧ c3s.pid = c3e.pointerID ∧
    (Scroll.step cfg1 false 0 c3s c3e).2 = 0 ∧
    (Scroll.step cfg1 false 0 c3s c3e).1.grab = true := by
  have h := (C3_scroll_drag_grab cfg1 false 0 c3s c3e rfl rfl rfl).1 (by decide)
  exact ⟨rfl, rfl, h.1, h.2.2.mpr (Or.inr (Or.inl (by decide)))⟩

/-- C5: an accepted Drag event of the Drag recognizer is forwarded with its
position pinned by the configured axis: with Horizontal the Y coordinate is
replaced by the start Y, with Vertical the X coordinate by the start X, and
with Both the position is unchanged. -/
theorem C5_axis_pinning (cfg : Metric) (d : Drag) (e : Event)
    (hk : e.kind = Kind.Drag) (hd : d.dragging = true)
    (hpid : e.pointerID = d.pid) :
    (∀ ax : Axis, (Drag.step cfg ax d e).2 =
       [{ e with position := Drag.pin ax d.start e.position }]) ∧
    (Drag.pin Horizontal d.start e.position).y = d.start.y ∧
    (Drag.pin Vertical d.start e.position).x = d.start.x ∧
    Drag.pin Both d.start e.position = e.position := by
  obtain ⟨k, src, pidE, btns, prio, tm, pos, scr, mods⟩ := e
  replace hk : k = Kind.Drag := hk
  subst hk
  replace hpid : pidE = d.pid := hpid
  refine ⟨?_, by simp [Drag.pin, Vertical, Horizontal],
    by simp [Drag.pin, Vertical, Horizontal], by simp [Drag.pin, Both, Vertical, Horizontal]⟩
  intro ax
  simp only [Drag.step]
  rw [if_neg (by simp [hd, hpid])]
  split
  · split <;> rfl
  · rfl

theorem C5_axis_pinning_witness :
    c5d.start = (⟨10, 10⟩ : Point) ∧
    (Drag.step cfg1 Horizontal c5d c5e).2 =
      [{ c5e with position := Drag.pin Horizontal c5d.start c5e.position }] ∧
    Drag.pin Horizontal c5d.start c5e.position = (⟨57, 10⟩ : Point) := by
  refine ⟨rfl, ?_, by decide⟩
  exact (C5_axis_pinning cfg1 c5d c5e rfl rfl rfl).1 Horizontal

/-- C7: a Cancel pointer event is absolute regardless of its pointer id: the
Click recognizer clears pressed, hovered and entered and emits a KindCancel
ClickEvent exactly when a press was in progress; the Scroll recognizer
clears dragging and the grab request and contributes nothing. -/
theorem C7_cancel_absolute (cfg : Metric) (android : Bool) (t : ℤ)
    (c : Click) (s : Scroll) (e : Event) (hk : e.kind = Kind.Cancel) :
    (Click.step c e).1 =
      { c with pressed := false, hovered := false, entered := false } ∧
    (Click.step c e).2 = (if c.pressed then [cancelClickEvent] else []) ∧
    (Scroll.step cfg android t s e).1 =
      { s with dragging := false, grab := false } ∧
    (Scroll.step cfg android t s e).2 = 0 := by
  obtain ⟨k, src, pidE, btns, prio, tm, pos, scr, mods⟩ := e
  replace hk : k = Kind.Cancel := hk
  subst hk
  exact ⟨rfl, rfl, rfl, rfl⟩

/-- The state component of Drag.Update is the fold of the state component of
the step. -/
theorem Drag.update_fst (cfg : Metric) (ax : Axis) (d : Drag)
    (evts : List Event) :
    (Drag.update cfg d evts ax).1 =
      evts.foldl (fun d e => (Drag.step cfg ax d e).1) d := by
  suffices h : ∀ (l : List Event) (d0 : Drag) (acc : List Event),
      (l.foldl (fun acc e =>
          let r := Drag.step cfg ax acc.1 e
          (r.1, acc.2 ++ r.2)) (d0, acc)).1 =
        l.foldl (fun d e => (Drag.step cfg ax d e).1) d0 by
    exact h evts d []
  intro l
  induction l with
  | nil => intro d0 acc; rfl
  | cons x xs ih => intro d0 acc; exact ih _ _

/-- On a Drag kind event the Drag recognizer preserves start, dragging, pid
and pressed, and the grab latch holds afterwards exactly when it already did
or the event was accepted below Grabbed priority with squared displacement
beyond the squared converted slop. -/
theorem Drag.step_drag_fields (cfg : Metric) (ax : Axis) (d : Drag) (e : Event)
    (hk : e.kind = Kind.Drag) :
    (Drag.step cfg ax d e).1.start = d.start ∧
    (Drag.step cfg ax d e).1.dragging = d.dragging ∧
    (Drag.step cfg ax d e).1.pid = d.pid ∧
    ((Drag.step cfg ax d e).1.grab = true ↔
       (d.grab = true ∨ (d.dragging = true ∧ e.pointerID = d.pid ∧
          e.priority.toNat < Priority.Grabbed.toNat ∧
          Drag.sqDisp d.start (Drag.pin ax d.start e.position) >
            ((cfg.dp touchSlop * cfg.dp touchSlop : ℤ) : ℚ)))) := by
  obtain ⟨k, src, pidE, btns, prio, tm, pos, scr, mods⟩ := e
  replace hk : k = Kind.Drag := hk
  subst hk
  simp only [Drag.step]
  split
  next hng =>
    refine ⟨rfl, rfl, rfl, fun h => Or.inl h, ?_⟩
    rintro (h | ⟨h1, h2, _⟩)
    · exact h
    · rcases hng with hng | hng
      · rw [hng] at h1; exact Bool.noConfusion h1
      · exact absurd h2 hng
  next hng =>
    push_neg at hng
    obtain ⟨hd, hpid⟩ := hng
    replace hd : d.dragging = true := by
      cases hb : d.dragging
      · exact absurd hb hd
      · rfl
    split
    next hprio =>
      split
      next hcond =>
        exact ⟨rfl, rfl, rfl,
          iff_of_true rfl (Or.inr ⟨hd, hpid, hprio, hcond⟩)⟩
      next hcond =>
        refine ⟨rfl, rfl, rfl, fun h => Or.inl h, ?_⟩
        rintro (h | h)
        · exact h
        · exact absurd h.2.2.2 hcond
    next hprio =>
      refine ⟨rfl, rfl, rfl, fun h => Or.inl h, ?_⟩
      rintro (h | h)
      · exact h
      · exact absurd h.2.2.1 hprio

/-- Folding Drag kind events preserves start, dragging and pid, keeps an
already set grab latch, and never sets the latch while every below-Grabbed
event stays within the squared slop. -/
theorem Drag.fold_grab (cfg : Metric) (ax : Axis) (evts : List Event) :
    ∀ d : Drag, (∀ e ∈ evts, e.kind = Kind.Drag) →
      ((evts.foldl (fun d e => (Drag.step cfg ax d e).1) d).start = d.start ∧
       (evts.foldl (fun d e => (Drag.step cfg ax d e).1) d).dragging = d.dragging ∧
       (evts.foldl (fun d e => (Drag.step cfg ax d e).1) d).pid = d.pid ∧
       (d.grab = true →
         (evts.foldl (fun d e => (Drag.step cfg ax d e).1) d).grab = true) ∧
       (d.grab = false →
         (∀ e ∈ evts, e.priority.toNat < Priority.Grabbed.toNat →
            ¬ Drag.sqDisp d.start (Drag.pin ax d.start e.position) >
              ((cfg.dp touchSlop * cfg.dp touchSlop : ℤ) : ℚ)) →
         (evts.foldl (fun d e => (Drag.step cfg ax d e).1) d).grab = false)) := by
  induction evts with
  | nil =>
    intro d _
    exact ⟨rfl, rfl, rfl, fun h => h, fun h _ => h⟩
  | cons x xs ih =>
    intro d hall
    have hx := Drag.step_drag_fields cfg ax d x (hall x (List.mem_cons_self x xs))
    have ihx := ih (Drag.step cfg ax d x).1
      (fun e he => hall e (List.mem_cons_of_mem x he))
    simp only [List.foldl_cons]
    refine ⟨ihx.1.trans hx.1, ihx.2.1.trans hx.2.1, ihx.2.2.1.trans hx.2.2.1,
      ?_, ?_⟩
    · intro hg
      exact ihx.2.2.2.1 (hx.2.2.2.mpr (Or.inl hg))
    · intro hg hsmall
      have hxg : (Drag.step cfg ax d x).1.grab = false := by
        cases hb : (Drag.step cfg ax d x).1.grab
        · rfl
        · exfalso
          rcases hx.2.2.2.mp hb with h | h
          · rw [hg] at h; exact Bool.noConfusion h
          · exact hsmall x (List.mem_cons_self x xs) h.2.2.1 h.2.2.2
      refine ihx.2.2.2.2 hxg ?_
      intro e he hp
      rw [hx.1]
      exact hsmall e (List.mem_cons_of_mem x he) hp

/-- C4: over a run of Drag kind events of one gesture, the grab latch is
never set while every below-Grabbed event keeps its squared displacement
from the start within the squared converted slop; an accepted below-Grabbed
Drag event whose squared displacement exceeds the squared slop sets it; once
set it stays set over any further Drag events; and for a state with the
latch set, a single step clears it exactly on a Release or Cancel matching
the owned pointer id while dragging. -/
theorem C4_drag_slop_latch (cfg : Metric) (ax : Axis) (d : Drag)
    (evts : List Event) (hall : ∀ e ∈ evts, e.kind = Kind.Drag) :
    (d.grab = false →
       (∀ e ∈ evts, e.priority.toNat < Priority.Grabbed.toNat →
          Drag.sqDisp d.start (Drag.pin ax d.start e.position) ≤
            ((cfg.dp touchSlop * cfg.dp touchSlop : ℤ) : ℚ)) →
       (Drag.update cfg d evts ax).1.grab = false) ∧
    (∀ e3 : Event, e3.kind = Kind.Drag → d.dragging = true →
       e3.pointerID = d.pid → e3.priority.toNat < Priority.Grabbed.toNat →
       Drag.sqDisp d.start (Drag.pin ax d.start e3.position) >
         ((cfg.dp touchSlop * cfg.dp touchSlop : ℤ) : ℚ) →
       (Drag.step cfg ax d e3).1.grab = true) ∧
    (d.grab = true → (Drag.update cfg d evts ax).1.grab = true) ∧
    (∀ e2 : Event, d.grab = true →
       ((Drag.step cfg ax d e2).1.grab = false ↔
         ((e2.kind = Kind.Release ∨ e2.kind = Kind.Cancel) ∧
          d.dragging = true ∧ e2.pointerID = d.pid))) := by
  refine ⟨?_, ?_, ?_, ?_⟩
  · intro hg hsmall
    rw [Drag.update_fst]
    exact (Drag.fold_grab cfg ax evts d hall).2.2.2.2 hg
      (fun e he hp => not_lt.mpr (hsmall e he hp))
  · intro e3 hk3 hdd hpid3 hprio hbig
    exact (Drag.step_drag_fields cfg ax d e3 hk3).2.2.2.mpr
      (Or.inr ⟨hdd, hpid3, hprio, hbig⟩)
  · intro hg
    rw [Drag.update_fst]
    exact (Drag.fold_grab cfg ax evts d hall).2.2.2.1 hg
  · intro e2 hg
    obtain ⟨k, src, pidE, btns, prio, tm, pos, scr, mods⟩ := e2
    cases k
    case Press =>
      simp only [Drag.step]
      split
      · simp [hg]
      · split <;> simp [hg]
    case Drag =>
      simp only [Drag.step]
      split
      · simp [hg]
      · split
        · split <;> simp [hg]
        · simp [hg]
    case Release =>
      simp only [Drag.step]
      split
      next hng =>
        simp only [hg]
        constructor
        · intro hfalse; exact absurd hfalse (by simp [hg])
        · rintro ⟨_, h2, h3⟩
          rcases hng with hng | hng
          · rw [h2] at hng; exact Bool.noConfusion hng
          · exact absurd h3 hng
      next hng =>
        push_neg at hng
        have hdrag : d.dragging = true := by
          cases hb : d.dragging
          · exact absurd hb hng.1
          · rfl
        exact iff_of_true rfl ⟨Or.inl trivial, hdrag, hng.2⟩
    case Cancel =>
      simp only [Drag.step]
      split
      next hng =>
        simp only [hg]
        constructor
        · intro hfalse; exact absurd hfalse (by simp [hg])
        · rintro ⟨_, h2, h3⟩
          rcases hng with hng | hng
          · rw [h2] at hng; exact Bool.noConfusion hng
          · exact absurd h3 hng
      next hng =>
        push_neg at hng
        have hdrag : d.dragging = true := by
          cases hb : d.dragging
          · exact absurd hb hng.1
          · rfl
        exact iff_of_true rfl ⟨Or.inr trivial, hdrag, hng.2⟩
    all_goals simp [Drag.step, hg]

theorem C4_drag_slop_latch_witness :
    c4d.grab = false ∧ (Drag.update cfg1 c4d [c4e] Both).1.grab = false ∧
    (Drag.step cfg1 Both c4d c4b).1.grab = true ∧
    c4g.grab = true ∧ (Drag.update cfg1 c4g [c4e] Both).1.grab = true ∧
    (Drag.step cfg1 Both c4g c4r).1.grab = false := by
  have h1 := C4_drag_slop_latch cfg1 Both c4d [c4e] (by decide)
  have h2 := C4_drag_slop_latch cfg1 Both c4g [c4e] (by decide)
  refine ⟨rfl, h1.1 rfl ?_, h1.2.1 c4b rfl rfl rfl (by decide) (by decide),
    rfl, h2.2.2.1 rfl, ?_⟩
  · intro e he hp
    rw [List.mem_singleton] at he
    subst he
    decide
  · exact (h2.2.2.2 c4r rfl).mpr ⟨Or.inl rfl, rfl, rfl⟩

/-- C6: a wheel Scroll event contributes the truncated integer part of the
running fractional accumulator (the configured axis delta added to the
carried remainder) and carries the leftover fraction to the next event;
concretely three successive deltas of 3/10 contribute 0, 0, 0 leaving
remainder 9/10, and a fourth contributes 1 leaving remainder 1/5. -/
theorem C6_wheel_accumulator (cfg : Metric) (android : Bool) (t : ℤ)
    (s : Scroll) (e : Event) (hk : e.kind = Kind.Scroll) :
    ((Scroll.step cfg android t s e).2 =
       truncQ (s.scroll + axisScroll s.axis e.scroll) ∧
     (Scroll.step cfg android t s e).1.scroll =
       s.scroll + axisScroll s.axis e.scroll -
         ((truncQ (s.scroll + axisScroll s.axis e.scroll) : ℤ) : ℚ)) ∧
    ((Scroll.step cfg1 false 0 scroll0 c6e).2 = 0 ∧ c6s1.scroll = 3/10 ∧
     (Scroll.step cfg1 false 0 c6s1 c6e).2 = 0 ∧ c6s2.scroll = 3/5 ∧
     (Scroll.step cfg1 false 0 c6s2 c6e).2 = 0 ∧ c6s3.scroll = 9/10 ∧
     (Scroll.step cfg1 false 0 c6s3 c6e).2 = 1 ∧ c6s4.scroll = 1/5 ∧
     Scroll.update cfg1 false scroll0 [c6e, c6e, c6e] 0 Horizontal = (c6s3, 0) ∧
     Scroll.update cfg1 false c6s3 [c6e] 0 Horizontal = (c6s4, 1)) := by
  constructor
  · obtain ⟨k, src, pidE, btns, prio, tm, pos, scr, mods⟩ := e
    replace hk : k = Kind.Scroll := hk
    subst hk
    exact ⟨rfl, rfl⟩
  · exact ⟨by decide, by decide, by decide, by decide, by decide, by decide,
      by decide, by decide, by decide, by decide⟩

theorem C6_wheel_accumulator_witness :
    c6e.kind = Kind.Scroll ∧
    (Scroll.step cfg1 false 0 c6s3 c6e).2 =
      truncQ (c6s3.scroll + axisScroll c6s3.axis c6e.scroll) ∧
    truncQ (c6s3.scroll + axisScroll c6s3.axis c6e.scroll) = 1 :=
  ⟨rfl, (C6_wheel_accumulator cfg1 false 0 c6s3 c6e rfl).1.1, by decide⟩

/-- C8 counterexample: with a pointer owned, a Release from a different
pointer id is not ignored by the Drag recognizer (it clears the pressed
flag), and a wheel Scroll event from a different pointer id still
contributes to the Scroll recognizer total. -/
theorem C8_pid_counterexample :
    c8d.dragging = true ∧ c8d.pid ≠ c8re.pointerID ∧
    (Drag.step cfg1 Both c8d c8re).1 ≠ c8d ∧
    c8s.dragging = true ∧ c8s.pid ≠ c8w.pointerID ∧
    (Scroll.step cfg1 false 0 c8s c8w).2 = 1 :=
  ⟨rfl, by decide, by decide, rfl, by decide, by decide⟩

/-- C8 (amended): with a pointer owned, a non-Cancel event with a different
pointer id changes no state and contributes nothing, with two exceptions
visible in the code: wheel Scroll events are not pointer-id gated at all,
and the Drag recognizer always updates its pressed flag on Press and
Release. Precisely: a pressed Click ignores every non-Cancel event with a
foreign id; a dragging Scroll ignores every non-Cancel, non-wheel event
with a foreign id; a dragging Drag ignores a foreign Drag event entirely
and handles a foreign Release by clearing only the pressed flag, forwarding
nothing. -/
theorem C8_pid_gating (cfg : Metric) (android : Bool) (t : ℤ) (ax : Axis)
    (c : Click) (d : Drag) (s : Scroll) (e : Event)
    (hk : e.kind ≠ Kind.Cancel) :
    (c.pressed = true → c.pid ≠ e.pointerID → Click.step c e = (c, [])) ∧
    (s.dragging = true → s.pid ≠ e.pointerID → e.kind ≠ Kind.Scroll →
       Scroll.step cfg android t s e = (s, 0)) ∧
    (d.dragging = true → d.pid ≠ e.pointerID → e.kind = Kind.Drag →
       Drag.step cfg ax d e = (d, [])) ∧
    (d.dragging = true → d.pid ≠ e.pointerID → e.kind = Kind.Release →
       Drag.step cfg ax d e = ({ d with pressed := false }, [])) := by
  obtain ⟨k, src, pidE, btns, prio, tm, pos, scr, mods⟩ := e
  replace hk : k ≠ Kind.Cancel := hk
  refine ⟨?_, ?_, ?_, ?_⟩
  · intro hcp hcpid
    replace hcpid : c.pid ≠ pidE := hcpid
    cases k
    case Cancel => exact absurd rfl hk
    all_goals simp_all [Click.step]
  · intro hsd hspid hw
    replace hspid : s.pid ≠ pidE := hspid
    replace hw : k ≠ Kind.Scroll := hw
    cases k
    case Cancel => exact absurd rfl hk
    case Scroll => exact absurd rfl hw
    all_goals simp_all [Scroll.step]
  · intro hdd hdpid hkD
    replace hkD : k = Kind.Drag := hkD
    subst hkD
    replace hdpid : d.pid ≠ pidE := hdpid
    simp only [Drag.step]
    rw [if_pos (Or.inr (Ne.symm hdpid))]
  · intro hdd hdpid hkR
    replace hkR : k = Kind.Release := hkR
    subst hkR
    replace hdpid : d.pid ≠ pidE := hdpid
    simp only [Drag.step]
    rw [if_pos (Or.inr (Ne.symm hdpid))]

theorem C8_pid_gating_witness :
    c8c.pressed = true ∧ c8s.dragging = true ∧ c8d.dragging = true ∧
    Click.step c8c c8re = (c8c, []) ∧
    Scroll.step cfg1 false 0 c8s c8re = (c8s, 0) ∧
    Drag.step cfg1 Both c8d c8re = ({ c8d with pressed := false }, []) := by
  have h := C8_pid_gating cfg1 false 0 Both c8c c8d c8s c8re (by decide)
  exact ⟨rfl, rfl, rfl, h.1 rfl (by decide), h.2.1 rfl (by decide) (by decide),
    h.2.2.2 rfl (by decide) rfl⟩

/-- C9 counterexample: Both is a valid Axis value, yet Axis.String reaches
the default branch and panics on it (embedded as none). -/
theorem C9_string_counterexample : Axis.string Both = none := rfl

/-- C9 (amended): the String routines return a name exactly on the values
their switches cover and panic elsewhere: Axis.String names Horizontal and
Vertical but panics on Both and on every out-of-range value; ClickKind.String
names KindPress, KindClick and KindCancel and panics on every other value. -/
theorem C9_string_totality :
    Axis.string Horizontal = some ("Horizontal") ∧
    Axis.string Vertical = some ("Vertical") ∧
    ClickKind.string KindPress = some ("TypePress") ∧
    ClickKind.string KindClick = some ("TypeClick") ∧
    ClickKind.string KindCancel = some ("TypeCancel") ∧
    (∀ a : Axis, (Axis.string a).isSome =
       (decide (a = Horizontal) || decide (a = Vertical))) ∧
    (∀ kd : ClickKind, (ClickKind.string kd).isSome =
       (decide (kd = KindPress) || decide (kd = KindClick) ||
        decide (kd = KindCancel))) := by
  refine ⟨rfl, rfl, rfl, rfl, rfl, ?_, ?_⟩
  · intro a
    by_cases h0 : a = Horizontal
    · subst h0; rfl
    · by_cases h1 : a = Vertical
      · subst h1; rfl
      · simp [Axis.string, h0, h1]
  · intro kd
    by_cases h0 : kd = KindPress
    · subst h0; rfl
    · by_cases h1 : kd = KindClick
      · subst h1; rfl
      · by_cases h2 : kd = KindCancel
        · subst h2; rfl
        · simp [ClickKind.string, h0, h1, h2]

/-- C10: Scroll handles a Release gated only on pointer-id equality, not on
an active drag: with a matching id and dragging false it still recomputes
the estimate over whatever samples the estimator retains, starts a fling
exactly when the estimated net distance exceeds the converted slop in either
direction, clears dragging and grab, contributes nothing, and leaves the
estimator itself untouched; the estimator is reset (restarted from the press
sample) only by an accepted Press. -/
theorem C10_release_ungated (cfg : Metric) (android : Bool) (t : ℤ)
    (s : Scroll) (e : Event)
    (hk : e.kind = Kind.Release) (hpid : s.pid = e.pointerID)
    (_hd : s.dragging = false) :
    (Scroll.step cfg android t s e).1.flinger =
      (if (s.estimator.estimate).distance < -(((cfg.dp touchSlop : ℤ) : ℚ)) ∨
          ((cfg.dp touchSlop : ℤ) : ℚ) < (s.estimator.estimate).distance
       then Animation.start cfg t (s.estimator.estimate).velocity
       else s.flinger) ∧
    (Scroll.step cfg android t s e).1.estimator = s.estimator ∧
    (Scroll.step cfg android t s e).1.dragging = false ∧
    (Scroll.step cfg android t s e).1.grab = false ∧
    (Scroll.step cfg android t s e).2 = 0 ∧
    (∀ (s2 : Scroll) (e2 : Event), e2.kind = Kind.Press → s2.dragging = false →
       (e2.source = Source.Touch ∨ android = true) →
       (Scroll.step cfg android t s2 e2).1.estimator =
         Extrapolation.empty.sample e2.time (s2.val e2.position)) := by
  obtain ⟨k, src, pidE, btns, prio, tm, pos, scr, mods⟩ := e
  replace hk : k = Kind.Release := hk
  subst hk
  replace hpid : s.pid = pidE := hpid
  simp only [Scroll.step]
  rw [if_neg (by simp [hpid])]
  refine ⟨rfl, rfl, rfl, rfl, rfl, ?_⟩
  intro s2 e2 hk2 hd2 hsrc
  obtain ⟨k2, src2, pid2, btns2, prio2, tm2, pos2, scr2, mods2⟩ := e2
  replace hk2 : k2 = Kind.Press := hk2
  subst hk2
  have hng : ¬(src2 ≠ Source.Touch ∧ android = false) := by
    rcases hsrc with h | h
    · exact fun hcon => hcon.1 h
    · intro hcon
      rw [h] at hcon
      exact absurd hcon.2 (by decide)
  simp only [Scroll.step]
  rw [if_neg (by simp [hd2]), if_neg hng]

theorem C10_release_ungated_witness :
    c10s.dragging = false ∧ c10s.pid = c10e.pointerID ∧
    c10s.estimator = (⟨[(0, 0), (1000000, 100)]⟩ : Extrapolation) ∧
    (Scroll.step cfg1 false 0 c10s c10e).1.flinger.isActive = true ∧
    (Scroll.step cfg1 false 0 c10s c10e).1.estimator = c10s.estimator ∧
    (Scroll.step cfg1 false 0 c10s c10p).1.estimator =
      Extrapolation.empty.sample c10p.time (c10s.val c10p.position) := by
  have h := C10_release_ungated cfg1 false 0 c10s c10e rfl rfl rfl
  refine ⟨rfl, rfl, rfl, ?_, h.2.1, h.2.2.2.2.2 c10s c10p rfl rfl (Or.inl rfl)⟩
  rw [h.1]
  decide

theorem C7_cancel_absolute_witness :
    c7c.pressed = true ∧ c7c.pid ≠ c7e.pointerID ∧ c7s.pid ≠ c7e.pointerID ∧
    (Click.step c7c c7e).2 = [cancelClickEvent] ∧
    (Scroll.step cfg1 false 0 c7s c7e).1.grab = false ∧
    (Scroll.step cfg1 false 0 c7s c7e).1.dragging = false := by
  have h := C7_cancel_absolute cfg1 false 0 c7c c7s c7e rfl
  refine ⟨rfl, by decide, by decide, ?_, ?_, ?_⟩
  · rw [h.2.1]; decide
  · rw [h.2.2.1]
  · rw [h.2.2.1]

end Gio
